import Mathlib

/-!
Shallow embedding of `src/DynSLAM/DepthProvider.h` (DynSLAM).

Modelling conventions:
* C++ `float`/`double` values are modelled as exact rationals (`ℚ`);
  the source formulas are pure field arithmetic.
* `cv::Mat`-style buffers are modelled as a size (`rows`, `cols`) together
  with the element payload; the element type tag of the disparity matrix
  (`CV_32FC1`, `CV_16SC1`, anything else) is an inductive payload.
* `static_cast<int32_t>(double)` truncates toward zero: `truncToInt`.
* `static_cast<int16_t>(int32_t)` narrows modulo 2^16 into
  `[-32768, 32767]`: `toInt16`.
* The `throw std::runtime_error(...)` in `DepthFromStereo` is modelled with
  `Except String`: an `.error` result carries the message and no buffer.
* Binding the `CV_16SC1` matrix to the `const cv::Mat_<uint16_t>&`
  parameter runs `Mat::convertTo(*this, CV_16UC1)`, which converts every
  element with `saturate_cast<ushort>`: values are clamped into
  `[0, 65535]`, so negative stored disparities become 0 before
  `at<uint16_t>` reads them: `saturateUInt16`.
-/

namespace DynSLAM

/-- `struct StereoCalibration` — the two calibration scalars, stored verbatim
by the constructor (`DepthProvider.h:20-26`). -/
structure StereoCalibration where
  baseline_meters : ℚ
  focal_length_px : ℚ
  deriving DecidableEq

/-- `DepthProvider::DepthFromDisparity` (`DepthProvider.h:73-76`):
`(calibration.baseline_meters * calibration.focal_length_px) / disparity_px`. -/
def DepthFromDisparity (disparity_px : ℚ) (calibration : StereoCalibration) : ℚ :=
  (calibration.baseline_meters * calibration.focal_length_px) / disparity_px

/-- Truncation toward zero, the behaviour of `static_cast<int32_t>` applied to
a `double` value (for values in the representable range). -/
def truncToInt (q : ℚ) : ℤ :=
  if 0 ≤ q then ⌊q⌋ else ⌈q⌉

/-- Two's-complement narrowing to 16 bits, the behaviour of
`static_cast<int16_t>` applied to an `int32_t`. -/
def toInt16 (x : ℤ) : ℤ :=
  (x + 32768) % 65536 - 32768

/-- `std::numeric_limits<int16_t>::max()`. -/
def int16Max : ℤ := 32767

/-- `const int32_t kMaxDepthMeters = 15` (`DepthProvider.h:99`). -/
def kMaxDepthMeters : ℤ := 15

/-- `int32_t min_depth = 0.5 * kMetersToMillimeters` (`DepthProvider.h:100`),
i.e. `int32_t(500.0) = 500`. -/
def min_depth : ℤ := 500

/-- The per-pixel body of the loop in `DepthFromDisparityMap`
(`DepthProvider.h:90-110`): convert the disparity to meters, scale by 1000
and truncate, clip to the sentinel when out of range, and narrow to 16 bits. -/
def depthPixel (disp : ℚ) (calibration : StereoCalibration) : ℤ :=
  let depth_mm : ℤ := truncToInt (1000 * DepthFromDisparity disp calibration)
  let clipped : ℤ :=
    if depth_mm > kMaxDepthMeters * 1000 ∨ depth_mm < min_depth then int16Max else depth_mm
  toInt16 clipped

/-- The element payload of a `cv::Mat` holding the disparity: the dispatch in
`DepthFromStereo` (`DepthProvider.h:53-64`) distinguishes `CV_32FC1`,
`CV_16SC1`, and every other element type (carried as its name string). -/
inductive MatData where
  | f32 (val : ℕ → ℕ → ℚ)
  | s16 (val : ℕ → ℕ → ℤ)
  | other (typeName : String)

/-- A `cv::Mat`: spatial size plus element payload. -/
structure Mat where
  rows : ℕ
  cols : ℕ
  data : MatData

/-- `DepthProvider::DepthFromDisparityMap<T>` (`DepthProvider.h:81-113`):
the output buffer has the disparity map's size and holds `depthPixel` of the
(already `T`-read, float-converted) disparity at every pixel. -/
def DepthFromDisparityMap (disparity : ℕ → ℕ → ℚ) (rows cols : ℕ)
    (calibration : StereoCalibration) : Mat :=
  ⟨rows, cols, .s16 (fun i j => depthPixel (disparity i j) calibration)⟩

/-- OpenCV's `saturate_cast<ushort>`, applied elementwise by
`Mat::convertTo` when the `CV_16SC1` disparity matrix is bound to the
`const cv::Mat_<uint16_t>&` parameter of `DepthFromDisparityMap<uint16_t>`
(`DepthProvider.h:57`): the stored value is clamped into `[0, 65535]`, so a
negative stored disparity becomes 0 before `at<uint16_t>` reads it. -/
def saturateUInt16 (v : ℤ) : ℤ :=
  if v < 0 then 0 else if v > 65535 then 65535 else v

/-- The message of the `std::runtime_error` thrown for an unsupported
disparity element type (`DepthProvider.h:60-63`). -/
def unsupportedMsg (typeName : String) : String :=
  "Unknown data type for disparity matrix [" ++ typeName ++
    "]. Supported are CV_32FC1 and CV_16UC1."

/-- `DepthProvider::DepthFromStereo` (`DepthProvider.h:36-65`). The pluggable
`DisparityMapFromStereo` is passed as `estimator`; `input_is_depth` is the
`input_is_depth_` flag fixed at construction. In passthrough mode the
estimator output is the result; otherwise the element type is dispatched,
`CV_16SC1` data being saturate-converted to `uint16_t` by the
`Mat_<uint16_t>` binding before being read. -/
def DepthFromStereo (input_is_depth : Bool) (estimator : Mat → Mat → Mat)
    (left right : Mat) (calibration : StereoCalibration) : Except String Mat :=
  if input_is_depth then
    Except.ok (estimator left right)
  else
    let out_disparity := estimator left right
    match out_disparity.data with
    | .f32 v =>
        Except.ok (DepthFromDisparityMap v out_disparity.rows out_disparity.cols calibration)
    | .s16 v =>
        Except.ok (DepthFromDisparityMap (fun i j => ((saturateUInt16 (v i j) : ℤ) : ℚ))
          out_disparity.rows out_disparity.cols calibration)
    | .other t => Except.error (unsupportedMsg t)

/-- Reads the element at `(i, j)` of a 16-bit signed matrix, `none` when the
matrix holds another element type. -/
def matAtS16 (m : Mat) (i j : ℕ) : Option ℤ :=
  match m.data with
  | .s16 v => some (v i j)
  | _ => none

/-- Reads the element at `(i, j)` of the matrix of a successful result. -/
def resultAtS16 (r : Except String Mat) (i j : ℕ) : Option ℤ :=
  match r with
  | .ok m => matAtS16 m i j
  | .error _ => none

/-- Modelled from the spec: the behaviour claimed for the `CV_16SC1` branch,
reading the stored 16-bit value as a signed integer (the spec's "the value
converted at each pixel is the signed 16-bit disparity stored at that
pixel"). Differs from `DepthFromStereo` only in the `.s16` branch. -/
def DepthFromStereoSignedRead (input_is_depth : Bool) (estimator : Mat → Mat → Mat)
    (left right : Mat) (calibration : StereoCalibration) : Except String Mat :=
  if input_is_depth then
    Except.ok (estimator left right)
  else
    let out_disparity := estimator left right
    match out_disparity.data with
    | .f32 v =>
        Except.ok (DepthFromDisparityMap v out_disparity.rows out_disparity.cols calibration)
    | .s16 v =>
        Except.ok (DepthFromDisparityMap (fun i j => ((v i j : ℤ) : ℚ))
          out_disparity.rows out_disparity.cols calibration)
    | .other t => Except.error (unsupportedMsg t)

/-- The narrowing cast at `DepthProvider.h:109` is the identity on the values
the loop can produce: the clipped millimeter depth always fits in 16 bits. -/
theorem depthPixel_eq (disp : ℚ) (c : StereoCalibration) :
    depthPixel disp c =
      if truncToInt (1000 * DepthFromDisparity disp c) > 15000 ∨
          truncToInt (1000 * DepthFromDisparity disp c) < 500 then 32767
      else truncToInt (1000 * DepthFromDisparity disp c) := by
  unfold depthPixel toInt16 kMaxDepthMeters min_depth int16Max
  dsimp only
  split_ifs with h1 h2 h2 <;> omega

/-- C1: for every calibration with positive `baseline_meters` and
`focal_length_px` and every positive disparity `d`, `DepthFromDisparity`
returns exactly `(baseline_meters * focal_length_px) / d`, and the returned
value is strictly decreasing as `d` increases. -/
theorem depthFromDisparity_formula_and_antitone (c : StereoCalibration)
    (hb : 0 < c.baseline_meters) (hf : 0 < c.focal_length_px)
    (d : ℚ) (hd : 0 < d) :
    DepthFromDisparity d c = c.baseline_meters * c.focal_length_px / d ∧
      ∀ d2 : ℚ, d < d2 → DepthFromDisparity d2 c < DepthFromDisparity d c := by
  constructor
  · rfl
  · intro d2 hlt
    unfold DepthFromDisparity
    exact div_lt_div_of_pos_left (mul_pos hb hf) hd hlt

/-- Witness for C1 at `baseline = 1/2`, `focal = 700`, `d = 7 < 14`:
the depth at 7 px is `50` and the depth at 14 px is smaller. -/
theorem depthFromDisparity_formula_and_antitone_witness :
    DepthFromDisparity 7 ⟨1/2, 700⟩ = 50 ∧
      DepthFromDisparity 14 ⟨1/2, 700⟩ < DepthFromDisparity 7 ⟨1/2, 700⟩ := by
  refine ⟨by norm_num [DepthFromDisparity], ?_⟩
  exact (depthFromDisparity_formula_and_antitone ⟨1/2, 700⟩ (by norm_num) (by norm_num)
    7 (by norm_num)).2 14 (by norm_num)

/-- C2: in disparity-conversion mode, the value stored at each pixel is the
pixel's disparity converted to meters by `DepthFromDisparity`, scaled by 1000
and truncated; the truncated millimeter value is stored unchanged unless it
is greater than 15000 or less than 500, in which case it is replaced by the
sentinel `INT16_MAX`; in particular a computed depth of exactly 500 mm is
retained and one of 499 mm becomes the sentinel. -/
theorem depthFromDisparityMap_pixel_policy (disp : ℕ → ℕ → ℚ) (rows cols : ℕ)
    (c : StereoCalibration) (i j : ℕ) :
    matAtS16 (DepthFromDisparityMap disp rows cols c) i j =
      some (if truncToInt (1000 * DepthFromDisparity (disp i j) c) > 15000 ∨
                truncToInt (1000 * DepthFromDisparity (disp i j) c) < 500
            then int16Max
            else truncToInt (1000 * DepthFromDisparity (disp i j) c)) ∧
    matAtS16 (DepthFromDisparityMap (fun _ _ => 1) 1 1 ⟨1, 1/2⟩) 0 0 = some 500 ∧
    matAtS16 (DepthFromDisparityMap (fun _ _ => 1) 1 1 ⟨1, 499/1000⟩) 0 0 = some int16Max := by
  refine ⟨?_, ?_, ?_⟩
  · simp only [matAtS16, DepthFromDisparityMap, depthPixel_eq, int16Max]
  · simp only [matAtS16, DepthFromDisparityMap, depthPixel_eq]
    norm_num [DepthFromDisparity, truncToInt]
  · simp only [matAtS16, DepthFromDisparityMap, depthPixel_eq]
    norm_num [DepthFromDisparity, truncToInt, int16Max]

/-- C3: in disparity-conversion mode, every element of the produced depth
buffer is either a millimeter depth within `[500, 15000]` or exactly the
sentinel `INT16_MAX`. -/
theorem depthFromDisparityMap_range_invariant (disp : ℕ → ℕ → ℚ) (rows cols : ℕ)
    (c : StereoCalibration) (i j : ℕ) :
    ∃ v : ℤ, matAtS16 (DepthFromDisparityMap disp rows cols c) i j = some v ∧
      ((500 ≤ v ∧ v ≤ 15000) ∨ v = int16Max) := by
  refine ⟨depthPixel (disp i j) c, rfl, ?_⟩
  rw [depthPixel_eq]
  unfold int16Max
  split_ifs with h <;> omega

/-- C4 counterexample: with baseline 1 m and focal length 15 px, a disparity
of 1 px computes a millimeter depth of exactly 15000, and the stored output
is 15000 rather than the sentinel `INT16_MAX` the claim requires. -/
theorem depth15000_retained_counterexample :
    truncToInt (1000 * DepthFromDisparity 1 ⟨1, 15⟩) = 15000 ∧
    matAtS16 (DepthFromDisparityMap (fun _ _ => 1) 1 1 ⟨1, 15⟩) 0 0 = some 15000 ∧
    (15000 : ℤ) ≠ int16Max := by
  have h : truncToInt (1000 * DepthFromDisparity 1 ⟨1, 15⟩) = 15000 := by
    norm_num [DepthFromDisparity, truncToInt]
  refine ⟨h, ?_, by norm_num [int16Max]⟩
  simp only [matAtS16, DepthFromDisparityMap, depthPixel_eq, h]
  norm_num

/-- C4 amended: in disparity-conversion mode, a pixel whose computed
millimeter depth is exactly 15000 is retained (the upper bound is inclusive,
the check being `depth_mm > 15000`); a computed depth of 15001 mm is replaced
by the sentinel `INT16_MAX`, and one of 14999 mm is retained. -/
theorem depth_upper_bound_inclusive (disp : ℕ → ℕ → ℚ) (rows cols : ℕ)
    (c : StereoCalibration) (i j : ℕ) :
    (truncToInt (1000 * DepthFromDisparity (disp i j) c) = 15000 →
      matAtS16 (DepthFromDisparityMap disp rows cols c) i j = some 15000) ∧
    (truncToInt (1000 * DepthFromDisparity (disp i j) c) = 15001 →
      matAtS16 (DepthFromDisparityMap disp rows cols c) i j = some int16Max) ∧
    (truncToInt (1000 * DepthFromDisparity (disp i j) c) = 14999 →
      matAtS16 (DepthFromDisparityMap disp rows cols c) i j = some 14999) := by
    refine ⟨?_, ?_, ?_⟩ <;> intro h <;>
      simp only [matAtS16, DepthFromDisparityMap, depthPixel_eq, h] <;>
      norm_num [int16Max]

/-- Witness for the amended C4 at concrete calibrations: a computed depth of
exactly 15001 mm maps to the sentinel. -/
theorem depth_upper_bound_inclusive_witness :
    matAtS16 (DepthFromDisparityMap (fun _ _ => 1) 1 1 ⟨1, 15001/1000⟩) 0 0 =
      some int16Max :=
  (depth_upper_bound_inclusive (fun _ _ => 1) 1 1 ⟨1, 15001/1000⟩ 0 0).2.1
    (by norm_num [DepthFromDisparity, truncToInt])

/-- Evaluation helper for ceilings through the floor of the negation. -/
theorem ceil_eval (q : ℚ) (z : ℤ) (h : ⌊-q⌋ = -z) : ⌈q⌉ = z := by
  have hn : ⌊-q⌋ = -⌈q⌉ := Int.floor_neg
  omega

/-- Truncation toward zero sends nonpositive rationals to nonpositive
integers. -/
theorem truncToInt_nonpos (q : ℚ) (h : q ≤ 0) : truncToInt q ≤ 0 := by
  unfold truncToInt
  split_ifs with h0
  · have hq : q = 0 := le_antisymm h h0
    simp [hq]
  · exact Int.ceil_le.mpr (by exact_mod_cast h)

/-- A concrete `CV_16SC1` estimator output: a 1×1 matrix whose single stored
16-bit value is −32768. -/
def estC5 : Mat → Mat → Mat := fun _ _ => ⟨1, 1, .s16 (fun _ _ => -32768)⟩

/-- A concrete `CV_16SC1` estimator output: a 1×1 matrix whose single stored
16-bit value is −1. -/
def estNeg1 : Mat → Mat → Mat := fun _ _ => ⟨1, 1, .s16 (fun _ _ => -1)⟩

/-- A concrete 1×1 input image. -/
def matC5 : Mat := ⟨1, 1, .f32 (fun _ _ => 0)⟩

/-- A calibration whose product `baseline * focal = -5` is negative, chosen so
that converting a disparity of −1 as a signed value would land inside the
valid depth range while the saturated read does not. -/
def calibNeg : StereoCalibration := ⟨-5, 1⟩

/-- A calibration used by witnesses. -/
def calibC5 : StereoCalibration := ⟨1/2, 40000⟩

/-- C5 counterexample: on a `CV_16SC1` disparity map storing −1, the
saturating conversion hands the converter 0 — not the negative stored
value −1 — and with calibration `⟨-5, 1⟩` the code outputs the sentinel
32767 where converting the signed stored value −1, as the claim states,
would yield the in-range depth 5000 mm. -/
theorem s16_negative_saturated_counterexample :
    saturateUInt16 (-1) = 0 ∧ ¬ (saturateUInt16 (-1) < 0) ∧ (0 : ℤ) ≠ -1 ∧
    resultAtS16 (DepthFromStereo false estNeg1 matC5 matC5 calibNeg) 0 0 =
      some int16Max ∧
    resultAtS16 (DepthFromStereoSignedRead false estNeg1 matC5 matC5 calibNeg) 0 0 =
      some 5000 ∧
    (32767 : ℤ) ≠ 5000 := by
  refine ⟨by decide, by decide, by decide, ?_, ?_, by decide⟩
  · have h1 : resultAtS16 (DepthFromStereo false estNeg1 matC5 matC5 calibNeg) 0 0 =
        some (depthPixel ((saturateUInt16 (-1) : ℤ) : ℚ) calibNeg) := rfl
    have h2 : saturateUInt16 (-1) = 0 := by decide
    rw [h1, h2, depthPixel_eq]
    norm_num [DepthFromDisparity, calibNeg, truncToInt, int16Max]
  · have h1 : resultAtS16 (DepthFromStereoSignedRead false estNeg1 matC5 matC5 calibNeg) 0 0 =
        some (depthPixel (((-1 : ℤ) : ℚ)) calibNeg) := rfl
    rw [h1, depthPixel_eq]
    norm_num [DepthFromDisparity, calibNeg, truncToInt]

/-- C5 amended: in disparity-conversion mode with a 16-bit signed disparity
field, the matrix is saturate-converted to unsigned 16-bit when bound to the
`uint16_t` accessor: a nonnegative stored value is passed to the converter
unchanged, while a negative stored value is saturated to 0 before
conversion — it is never passed as a negative value — and such a pixel
produces the invalid sentinel. -/
theorem s16_disparity_saturated_to_zero (est : Mat → Mat → Mat) (l r : Mat)
    (c : StereoCalibration) (v : ℕ → ℕ → ℤ) (h : (est l r).data = .s16 v)
    (i j : ℕ) (hlo : -32768 ≤ v i j) (hhi : v i j ≤ 32767) :
    resultAtS16 (DepthFromStereo false est l r c) i j =
      some (depthPixel (((if v i j < 0 then 0 else v i j : ℤ)) : ℚ) c) ∧
    (0 : ℤ) ≤ (if v i j < 0 then 0 else v i j) ∧
    (v i j < 0 →
      resultAtS16 (DepthFromStereo false est l r c) i j = some int16Max) := by
  have hu : saturateUInt16 (v i j) = if v i j < 0 then 0 else v i j := by
    unfold saturateUInt16; split_ifs with h0 h1 <;> omega
  have hmain : resultAtS16 (DepthFromStereo false est l r c) i j =
      some (depthPixel (((if v i j < 0 then 0 else v i j : ℤ)) : ℚ) c) := by
    rcases hE : est l r with ⟨R, C, d⟩
    rw [hE] at h
    dsimp only at h
    subst h
    have hR : DepthFromStereo false est l r c =
        Except.ok (DepthFromDisparityMap
          (fun a b => ((saturateUInt16 (v a b) : ℤ) : ℚ)) R C c) := by
      unfold DepthFromStereo
      rw [hE]
      rfl
    rw [hR]
    show some (((saturateUInt16 (v i j) : ℤ) : ℚ) |> (depthPixel · c)) = _
    rw [hu]
  refine ⟨hmain, by split_ifs with h0 <;> omega, fun hneg => ?_⟩
  rw [hmain, if_pos hneg, depthPixel_eq]
  norm_num [DepthFromDisparity, truncToInt, int16Max]

/-- Witness for the amended C5 at the concrete stored value −32768: the
saturated read makes the pipeline emit the sentinel at that pixel. -/
theorem s16_disparity_saturated_to_zero_witness :
    resultAtS16 (DepthFromStereo false estC5 matC5 matC5 calibC5) 0 0 =
      some int16Max :=
  (s16_disparity_saturated_to_zero estC5 matC5 matC5 calibC5
    (fun _ _ => -32768) rfl 0 0 (by norm_num) (by norm_num)).2.2 (by norm_num)

/-- C6: in disparity-conversion mode, an estimator output of any element type
other than `CV_32FC1` or `CV_16SC1` makes `DepthFromStereo` fail with the
runtime error naming the unsupported type, and no matrix is returned in that
case; for the two supported element types no error is raised. -/
theorem depthFromStereo_unsupported_type_fatal (est : Mat → Mat → Mat) (l r : Mat)
    (c : StereoCalibration) :
    (∀ t, (est l r).data = .other t →
      DepthFromStereo false est l r c = .error (unsupportedMsg t) ∧
      ∀ m, DepthFromStereo false est l r c ≠ .ok m) ∧
    (∀ v, (est l r).data = .f32 v → ∃ m, DepthFromStereo false est l r c = .ok m) ∧
    (∀ v, (est l r).data = .s16 v → ∃ m, DepthFromStereo false est l r c = .ok m) := by
  refine ⟨fun t h => ?_, fun v h => ?_, fun v h => ?_⟩ <;>
    unfold DepthFromStereo <;> dsimp only <;> rw [h]
  · exact ⟨rfl, fun m hm => by cases hm⟩
  · exact ⟨_, rfl⟩
  · exact ⟨_, rfl⟩

/-- A concrete estimator producing a disparity matrix of unsupported element
type `CV_64FC1`. -/
def estBad : Mat → Mat → Mat := fun _ _ => ⟨2, 2, .other "CV_64FC1"⟩

/-- Witness for C6: the unsupported element type `CV_64FC1` yields the error
message naming it. -/
theorem depthFromStereo_unsupported_type_fatal_witness :
    DepthFromStereo false estBad matC5 matC5 calibC5 =
      .error (unsupportedMsg "CV_64FC1") :=
  ((depthFromStereo_unsupported_type_fatal estBad matC5 matC5 calibC5).1
    "CV_64FC1" rfl).1

/-- C7: in depth-passthrough mode, `DepthFromStereo` returns the estimator's
output verbatim, whatever its element type: no conversion, no scaling, no
clipping, and no element-type dispatch or unsupported-type check happens. -/
theorem depthFromStereo_passthrough (est : Mat → Mat → Mat) (l r : Mat)
    (c : StereoCalibration) :
    DepthFromStereo true est l r c = Except.ok (est l r) := rfl

/-- C8: with a positive calibration, a pixel whose disparity is zero or
negative, and likewise a pixel whose truncated millimeter depth falls outside
`[500, 15000]`, produces exactly the sentinel `INT16_MAX`; the per-pixel map
is a total function (no error path exists), and the value stored at a pixel
depends only on that pixel's own disparity, leaving every other pixel
unaffected. -/
theorem invalid_pixels_become_sentinel (c : StereoCalibration)
    (hb : 0 < c.baseline_meters) (hf : 0 < c.focal_length_px)
    (disp : ℕ → ℕ → ℚ) (rows cols : ℕ) (i j : ℕ) :
    (disp i j ≤ 0 →
      matAtS16 (DepthFromDisparityMap disp rows cols c) i j = some int16Max) ∧
    (truncToInt (1000 * DepthFromDisparity (disp i j) c) < 500 ∨
        15000 < truncToInt (1000 * DepthFromDisparity (disp i j) c) →
      matAtS16 (DepthFromDisparityMap disp rows cols c) i j = some int16Max) ∧
    (∀ disp2 : ℕ → ℕ → ℚ, disp2 i j = disp i j →
      matAtS16 (DepthFromDisparityMap disp2 rows cols c) i j =
        matAtS16 (DepthFromDisparityMap disp rows cols c) i j) := by
  have hpix : ∀ d : ℕ → ℕ → ℚ,
      matAtS16 (DepthFromDisparityMap d rows cols c) i j =
        some (depthPixel (d i j) c) := fun d => rfl
  refine ⟨fun hd => ?_, fun hd => ?_, fun disp2 h2 => ?_⟩
  · have hq : DepthFromDisparity (disp i j) c ≤ 0 := by
      unfold DepthFromDisparity
      exact div_nonpos_iff.mpr (Or.inl ⟨le_of_lt (mul_pos hb hf), hd⟩)
    have hm : 1000 * DepthFromDisparity (disp i j) c ≤ 0 := by linarith
    have ht : truncToInt (1000 * DepthFromDisparity (disp i j) c) ≤ 0 :=
      truncToInt_nonpos _ hm
    rw [hpix, depthPixel_eq, if_pos (Or.inr (by omega))]
    rfl
  · rw [hpix, depthPixel_eq]
    rcases hd with hd | hd
    · rw [if_pos (Or.inr hd)]
      rfl
    · rw [if_pos (Or.inl hd)]
      rfl
  · rw [hpix, hpix, h2]

/-- Witness for C8: with baseline 1 m and focal length 1 px, a disparity of
−5 px yields the sentinel. -/
theorem invalid_pixels_become_sentinel_witness :
    matAtS16 (DepthFromDisparityMap (fun _ _ => -5) 1 1 ⟨1, 1⟩) 0 0 =
      some int16Max :=
  (invalid_pixels_become_sentinel ⟨1, 1⟩ (by norm_num) (by norm_num)
    (fun _ _ => -5) 1 1 0 0).1 (by norm_num)

/-- C9: whenever the estimator's output has the same size as the left input
image, any depth matrix returned by `DepthFromStereo` has exactly that size,
in both passthrough and conversion modes. -/
theorem depthFromStereo_preserves_dims (mode : Bool) (est : Mat → Mat → Mat)
    (l r : Mat) (c : StereoCalibration)
    (hr : (est l r).rows = l.rows) (hc : (est l r).cols = l.cols) :
    ∀ m : Mat, DepthFromStereo mode est l r c = Except.ok m →
      m.rows = l.rows ∧ m.cols = l.cols := by
  intro m hm
  cases mode
  · rcases hE : est l r with ⟨R, C, d⟩
    rw [hE] at hr hc
    cases d with
    | f32 v =>
        have hR : DepthFromStereo false est l r c =
            Except.ok (DepthFromDisparityMap v R C c) := by
          unfold DepthFromStereo; rw [hE]; rfl
        rw [hR] at hm
        cases hm
        exact ⟨hr, hc⟩
    | s16 v =>
        have hR : DepthFromStereo false est l r c =
            Except.ok (DepthFromDisparityMap
              (fun a b => ((saturateUInt16 (v a b) : ℤ) : ℚ)) R C c) := by
          unfold DepthFromStereo; rw [hE]; rfl
        rw [hR] at hm
        cases hm
        exact ⟨hr, hc⟩
    | other t =>
        have hR : DepthFromStereo false est l r c =
            Except.error (unsupportedMsg t) := by
          unfold DepthFromStereo; rw [hE]; rfl
        rw [hR] at hm
        cases hm
  · have hpass : DepthFromStereo true est l r c = Except.ok (est l r) := rfl
    rw [hpass] at hm
    cases hm
    exact ⟨hr, hc⟩

/-- A concrete estimator producing a `CV_32FC1` disparity map of the same
size as the left image. -/
def estSameSize : Mat → Mat → Mat := fun l _ => ⟨l.rows, l.cols, .f32 (fun _ _ => 1)⟩

/-- A concrete 2×3 left/right image. -/
def mat23 : Mat := ⟨2, 3, .f32 (fun _ _ => 0)⟩

/-- Witness for C9: a 2×3 stereo pair with a size-preserving estimator yields
a 2×3 depth matrix in conversion mode. -/
theorem depthFromStereo_preserves_dims_witness :
    (DepthFromDisparityMap (fun _ _ => 1) 2 3 ⟨1, 1⟩).rows = 2 ∧
    (DepthFromDisparityMap (fun _ _ => 1) 2 3 ⟨1, 1⟩).cols = 3 :=
  depthFromStereo_preserves_dims false estSameSize mat23 mat23 ⟨1, 1⟩ rfl rfl
    (DepthFromDisparityMap (fun _ _ => 1) 2 3 ⟨1, 1⟩) rfl

/-- C10: the `StereoCalibration` constructor stores its two arguments
verbatim, with no positivity or finiteness check, and `DepthFromDisparity`
is total, returning `baseline * focal / d` for every input whatsoever,
including zero and negative parameters and disparities. -/
theorem stereoCalibration_no_validation :
    ∀ b f : ℚ, (StereoCalibration.mk b f).baseline_meters = b ∧
      (StereoCalibration.mk b f).focal_length_px = f ∧
      ∀ d : ℚ, DepthFromDisparity d (StereoCalibration.mk b f) = b * f / d :=
  fun _ _ => ⟨rfl, rfl, fun _ => rfl⟩

end DynSLAM
